import Mathlib

/-!
Verification of the Plantque backend specification against the repository's
code.

The repository's `src/app.py` contains the client-side application, which
includes the query classifier `isQueryPlantRelated` and the image scaler
`compressImage`; those two are embedded here directly from the source.
The server-side components described by the specification (rate limiter,
result cache, health analyzer, visual lookup, request orchestrator) are not
present under `src/`, so they are modelled from the specification's own
algorithm descriptions; each such definition carries a doc comment starting
with `Modelled from the spec:`.

Machine integers do not occur: the source languages here use arbitrary
precision integers (counts, timestamps) and floating point only for the
image scaling, which is embedded over `ℚ`.
-/

/-! ## QueryClassifier (from src/app.py, isQueryPlantRelated) -/

/-- Per-character ASCII lowering of a string, the embedding of
JavaScript's `text.toLowerCase()` for the ASCII texts at issue. -/
def lowerChars (s : String) : List Char := s.data.map Char.toLower

/-- Substring test: `containsSub s kw` is the embedding of
JavaScript's `s.includes(kw)` on character lists. -/
def containsSub (s kw : List Char) : Bool :=
  s.tails.any (fun t => kw.isPrefixOf t)

/-- The fixed bilingual keyword list of `isQueryPlantRelated`
(src/app.py line 168), verbatim. -/
def plantKeywords : List String :=
  ["plant", "ped", "phool", "flower", "leaf", "tree", "patti", "care", "health",
   "mitti", "soil", "water", "khaad", "fertilizer", "poda", "kida", "rog",
   "sehat", "dhup", "gamla"]

/-- Embedding of `isQueryPlantRelated` (src/app.py lines 167-170):
`plantKeywords.some(keyword => text.toLowerCase().includes(keyword))`. -/
def isQueryPlantRelated (text : String) : Bool :=
  plantKeywords.any (fun keyword => containsSub (lowerChars text) keyword.data)

/-! ## compressImage (from src/app.py, lines 63-103) -/

/-- Embedding of the scaling step of `compressImage` (src/app.py lines 69-84):
`if (width > height) { if (width > MAX_WIDTH) { height *= MAX_WIDTH / width;
width = MAX_WIDTH } } else { if (height > MAX_HEIGHT) { width *= MAX_HEIGHT /
height; height = MAX_HEIGHT } }` with `MAX_WIDTH = MAX_HEIGHT = 1000`.
The source computes in floating point; the embedding uses exact rationals. -/
def scaleDims (width height : ℚ) : ℚ × ℚ :=
  if width > height then
    if width > 1000 then (1000, height * (1000 / width)) else (width, height)
  else
    if height > 1000 then (width * (1000 / height), 1000) else (width, height)

/-- Embedding of the output-canvas dimensions of `compressImage`
(src/app.py lines 86-92): the scaled dimensions, with width and height
swapped when `rotation % 180 !== 0`. -/
def compressImage (width height : ℚ) (rotation : Int) : ℚ × ℚ :=
  let wh := scaleDims width height
  if rotation % 180 ≠ 0 then (wh.2, wh.1) else (wh.1, wh.2)

/-! ## RateLimiter (not under src/; modelled from the spec, section 4.1) -/

/-- Modelled from the spec: per-client throttle record
`{window_start: timestamp, count: integer}` (spec section 3,
ClientThrottleState). Timestamps are seconds as naturals. -/
structure ClientThrottleState where
  window_start : Nat
  count : Nat
deriving DecidableEq, Repr

/-- Modelled from the spec: the fixed 60-second window (spec section 4.1). -/
def windowDuration : Nat := 60

/-- Modelled from the spec: the configured per-window ceiling,
the spec's example value 40 (spec section 4.1). -/
def rateCeiling : Nat := 40

/-- Modelled from the spec: `admitRequest(client_id)` for one client's state
(spec section 4.1): no prior state creates `count = 1` and allows; inside
the window it rejects when `count` exceeds the ceiling and otherwise
increments and allows; an elapsed window resets `window_start = now`,
`count = 1` and allows. Returns the decision and the updated state. -/
def admitRequest (now : Nat) (st : Option ClientThrottleState) :
    Bool × ClientThrottleState :=
  match st with
  | none => (true, ⟨now, 1⟩)
  | some s =>
    if now - s.window_start < windowDuration then
      if s.count > rateCeiling then (false, s)
      else (true, ⟨s.window_start, s.count + 1⟩)
    else (true, ⟨now, 1⟩)

/-- Runs `admitRequest` over a sequence of request timestamps for one client,
threading the state; returns the per-request decisions and final state. -/
def runAdmits : List Nat → Option ClientThrottleState →
    List Bool × Option ClientThrottleState
  | [], st => ([], st)
  | t :: rest, st =>
    let step := admitRequest t st
    let tail := runAdmits rest (some step.2)
    (step.1 :: tail.1, tail.2)

/-! ## HealthAnalyzer (not under src/; modelled from the spec, section 4.3) -/

/-- Modelled from the spec: one decoded RGB pixel (spec section 3,
PixelSample stream). -/
structure Pixel where
  r : Nat
  g : Nat
  b : Nat
deriving DecidableEq, Repr

/-- Modelled from the spec: the health triple
`{percentage, sunlight, issues}` (spec section 4.3). -/
structure HealthResult where
  percentage : Nat
  sunlight : String
  issues : String
deriving DecidableEq, Repr

/-- Modelled from the spec: a green pixel has its green channel strictly
greater than red and blue (spec section 4.3, step 2). -/
def isGreen (p : Pixel) : Bool := p.g > p.r && p.g > p.b

/-- Modelled from the spec: a yellow pixel has `red > 150 AND green > 150
AND blue < 100` (spec section 4.3, step 2). -/
def isYellow (p : Pixel) : Bool := p.r > 150 && p.g > 150 && p.b < 100

/-- Modelled from the spec: a brown pixel has `red > 100 AND green < 100
AND blue < 100` (spec section 4.3, step 2). -/
def isBrown (p : Pixel) : Bool := p.r > 100 && p.g < 100 && p.b < 100

/-- Number of green pixels in the decoded image. -/
def greenCount (pixels : List Pixel) : Nat := (pixels.filter isGreen).length

/-- Number of yellow pixels in the decoded image. -/
def yellowCount (pixels : List Pixel) : Nat := (pixels.filter isYellow).length

/-- Number of brown pixels in the decoded image. -/
def brownCount (pixels : List Pixel) : Nat := (pixels.filter isBrown).length

/-- Total per-channel brightness `sum of (r + g + b)` over all pixels
(spec section 4.3, step 2). -/
def brightnessSum (pixels : List Pixel) : Nat :=
  (pixels.map (fun p => p.r + p.g + p.b)).sum

/-- Modelled from the spec: the zero-pixel fallback `{80, Normal, None}`
(spec section 4.3, step 3). -/
def emptyImageResult : HealthResult := ⟨80, "Normal", "None"⟩

/-- Modelled from the spec: the decode-error fallback
`{percentage: 85, sunlight: Medium, issues: "Manual scan recommended"}`
(spec section 4.3 contract). -/
def decodeFallback : HealthResult := ⟨85, "Medium", "Manual scan recommended"⟩

/-- Modelled from the spec: steps 2-5 of the analyzer on the decoded pixel
sequence. `percentage = min(100, floor(green/total*100) + 30)`;
`brightness = mean(r+g+b)/3` with labels `Adequate` on `110 < brightness
< 190`, `TooHigh` on `>= 190`, else `Low` (comparisons taken exactly, by
cross multiplication with `3 * total`); issues checked as yellow first
(`yellow > 0.15*total`), then brown (`brown > 0.10*total`), else `None`;
a total of 0 short-circuits to the `{80, Normal, None}` fallback. -/
def analyzePixels (pixels : List Pixel) : HealthResult :=
  let total := pixels.length
  if total = 0 then emptyImageResult
  else
    let percentage := min 100 (greenCount pixels * 100 / total + 30)
    let s := brightnessSum pixels
    let sunlight :=
      if 330 * total < s && s < 570 * total then "Adequate"
      else if s ≥ 570 * total then "TooHigh"
      else "Low"
    let issues :=
      if yellowCount pixels * 100 > 15 * total then "Yellowing detected"
      else if brownCount pixels * 100 > 10 * total then "Dryness detected"
      else "None"
    ⟨percentage, sunlight, issues⟩

/-- Modelled from the spec: `analyze(image_bytes)` (spec section 4.3).
The repository contains no image decoder, so step 1 (decode plus downscale
to a longer edge of at most 150) is abstracted as the parameter `decode`;
a decode error is `none` and produces the fixed fallback instead of an
error, otherwise the pixel pass runs. -/
def analyze (decode : List Nat → Option (List Pixel)) (bytes : List Nat) :
    HealthResult :=
  match decode bytes with
  | none => decodeFallback
  | some pixels => analyzePixels pixels

/-! ## ResultCache (not under src/; modelled from the spec, section 4.2) -/

/-- Modelled from the spec: the plant identity part of an
IdentificationResult (spec section 3). -/
structure Identity where
  name : String
  scientific_name : String
  image_ref : String
deriving DecidableEq, Repr

/-- Modelled from the spec: the static care-instruction triple
(spec section 3). -/
structure CareInfo where
  water : String
  soil : String
  humidity : String
deriving DecidableEq, Repr

/-- Modelled from the spec: the immutable unit of value returned to the
caller and stored in the cache (spec section 3, IdentificationResult). -/
structure IdentificationResult where
  identity : Identity
  health : HealthResult
  care : CareInfo
  shopping : List String
deriving DecidableEq, Repr

/-- Modelled from the spec: `{value: IdentificationResult, stored_at:
timestamp}` (spec section 3, CacheEntry). -/
structure CacheEntry where
  value : IdentificationResult
  stored_at : Nat
deriving DecidableEq, Repr

/-- Modelled from the spec: an ImageFingerprint is a digest of the raw
image bytes; its representation is kept abstract as a byte list and the
digest function is a parameter of the orchestrator. -/
abbrev Fingerprint := List Nat

/-- The cache store: an in-memory association of fingerprints to entries. -/
abbrev Cache := List (Fingerprint × CacheEntry)

/-- Modelled from the spec: the default ttl of 3600 seconds
(spec section 4.2). -/
def ttlDefault : Nat := 3600

/-- Modelled from the spec: `get(key)` (spec section 4.2) returns `absent`
if the key was never stored or if `now - stored_at > ttl`; expired entries
are treated as absent but not removed by this read. -/
def cacheGet (cache : Cache) (ttl now : Nat) (key : Fingerprint) :
    Option IdentificationResult :=
  match cache.find? (fun e => e.1 == key) with
  | none => none
  | some e => if now - e.2.stored_at > ttl then none else some e.2.value

/-- Modelled from the spec: `put(key, value)` always overwrites
(spec section 4.2), stamping the entry with the store time. -/
def cachePut (cache : Cache) (key : Fingerprint) (v : IdentificationResult)
    (now : Nat) : Cache :=
  (key, ⟨v, now⟩) :: cache.filter (fun e => !(e.1 == key))

/-! ## VisualLookupClient and RequestOrchestrator (not under src/;
modelled from the spec, sections 4.4 and 4.6) -/

/-- Modelled from the spec: the candidate a successful visual lookup
produces, a primary identity plus up to two shopping links
(spec section 4.4). -/
structure Candidate where
  identity : Identity
  shopping : List String
deriving DecidableEq, Repr

/-- Modelled from the spec: the static, non-personalized care-instruction
text returned with every success (spec section 4.4); the concrete strings
are not given by the spec, only that they are fixed. -/
def staticCare : CareInfo :=
  ⟨"Water when topsoil is dry", "Well-draining potting mix",
   "Moderate humidity"⟩

/-- Modelled from the spec: the response taxonomy of the identify
operation, 200 with a result, 429 RateLimited, or 500 when the lookup
yields no candidate (spec sections 6 and 7). -/
inductive IdentifyResponse where
  | ok (result : IdentificationResult)
  | rateLimited
  | serverError
deriving DecidableEq, Repr

/-- Outcome of one identify request: the response, the client's updated
throttle state, the updated cache, and the number of outbound visual
lookup calls performed. -/
structure IdentifyOutcome where
  response : IdentifyResponse
  throttle : Option ClientThrottleState
  cache : Cache
  lookupCalls : Nat
deriving DecidableEq, Repr

/-- Modelled from the spec: the per-request state machine of the
orchestrator (spec section 4.6): admission first (failure is terminal
RateLimited before any other work); then the cache (a hit is terminal and
performs no lookup); on a miss one outbound lookup runs — `none`
uniformly covers empty match lists, non-success statuses and transport
errors (spec section 4.4) and is terminal ServerError with nothing
stored; on success the health analysis and the candidate are composed
into an IdentificationResult which is stored exactly once. The external
collaborators (lookup provider, image decoder, fingerprint digest) are
parameters. -/
def identifyRequest (lookup : List Nat → Option Candidate)
    (decode : List Nat → Option (List Pixel)) (fp : List Nat → Fingerprint)
    (throttle : Option ClientThrottleState) (cache : Cache)
    (now : Nat) (img : List Nat) : IdentifyOutcome :=
  let adm := admitRequest now throttle
  if adm.1 = false then ⟨.rateLimited, some adm.2, cache, 0⟩
  else
    match cacheGet cache ttlDefault now (fp img) with
    | some v => ⟨.ok v, some adm.2, cache, 0⟩
    | none =>
      match lookup img with
      | none => ⟨.serverError, some adm.2, cache, 1⟩
      | some cand =>
        let result : IdentificationResult :=
          ⟨cand.identity, analyze decode img, staticCare, cand.shopping⟩
        ⟨.ok result, some adm.2, cachePut cache (fp img) result now, 1⟩

/-- A concrete 100-pixel image that is 20 percent yellow and 20 percent
brown, exceeding both issue thresholds at once. -/
def mixedPixels : List Pixel :=
  List.replicate 20 ⟨200, 200, 50⟩ ++ List.replicate 20 ⟨150, 50, 50⟩ ++
    List.replicate 60 ⟨0, 0, 0⟩

/-- A concrete identification result, used to exercise the cache
operations on explicit inputs. -/
def sampleResult : IdentificationResult :=
  ⟨⟨"Snake Plant", "Sansevieria trifasciata", "ref"⟩,
   ⟨90, "Adequate", "None"⟩, staticCare, []⟩

/-! ## Helper lemmas -/

/-- A Boolean substring test succeeds exactly on a decomposition of the
scanned list around the pattern. -/
theorem containsSub_iff (s kw : List Char) :
    containsSub s kw = true ↔ ∃ pre post, s = pre ++ kw ++ post := by
  unfold containsSub
  rw [List.any_eq_true]
  constructor
  · rintro ⟨t, ht, hp⟩
    rw [List.mem_tails] at ht
    rw [ List.isPrefixOf_iff_prefix] at hp
    obtain ⟨post, rfl⟩ := hp
    obtain ⟨pre, rfl⟩ := ht
    exact ⟨pre, post, by simp⟩
  · rintro ⟨pre, post, rfl⟩
    refine ⟨kw ++ post, ?_, ?_⟩
    · rw [List.mem_tails]
      exact ⟨pre, by simp⟩
    · rw [ List.isPrefixOf_iff_prefix]
      exact ⟨post, rfl⟩

/-! ## Claim theorems -/

/-- C1: for every text input, `isQueryPlantRelated text` returns true if
and only if at least one keyword of the fixed bilingual keyword set occurs
as a case-insensitive substring anywhere in the text (a plain substring of
the lowered character sequence, with no tokenization or word-boundary
checks); in particular the snake-plant question is accepted and the
weather question is not. -/
theorem C1_in_domain_keyword_substring :
    (∀ text : String, isQueryPlantRelated text = true ↔
      ∃ kw ∈ plantKeywords, ∃ pre post,
        lowerChars text = pre ++ kw.data ++ post) ∧
    isQueryPlantRelated "How much water does my snake plant need?" = true ∧
    isQueryPlantRelated "What's the weather today?" = false := by
  refine ⟨?_, by decide, by decide⟩
  intro text
  unfold isQueryPlantRelated
  rw [List.any_eq_true]
  constructor
  · rintro ⟨kw, hkw, h⟩
    exact ⟨kw, hkw, (containsSub_iff _ _).1 h⟩
  · rintro ⟨kw, hkw, h⟩
    exact ⟨kw, hkw, (containsSub_iff _ _).2 h⟩


/-- Case analysis of the scaling step: bounds, exact aspect ratio, the
longer edge landing on 1000, and small images passing through. -/
theorem scaleDims_spec (w h : ℚ) (hw : 0 < w) (hh : 0 < h) :
    (scaleDims w h).1 ≤ 1000 ∧
    (scaleDims w h).2 ≤ 1000 ∧
    (scaleDims w h).1 * h = (scaleDims w h).2 * w ∧
    (1000 < max w h → max (scaleDims w h).1 (scaleDims w h).2 = 1000) ∧
    (w ≤ 1000 → h ≤ 1000 → scaleDims w h = (w, h)) := by
  unfold scaleDims
  split_ifs with hwh hw1000 hh1000
  · -- landscape, width over the bound
    have hle : h * (1000 / w) ≤ 1000 := by
      rw [mul_comm, div_mul_eq_mul_div, div_le_iff₀ hw]
      nlinarith
    refine ⟨le_refl _, hle, ?_, fun _ => max_eq_left hle,
      fun hcon _ => absurd hcon (not_le.mpr hw1000)⟩
    field_simp
    try ring
  · -- landscape, already within the bound
    have hwle : w ≤ 1000 := not_lt.mp hw1000
    have hmax : max w h ≤ 1000 := max_le hwle (le_trans (le_of_lt hwh) hwle)
    exact ⟨hwle, le_trans (le_of_lt hwh) hwle, mul_comm w h,
      fun hcon => absurd hcon (not_lt.mpr hmax), fun _ _ => rfl⟩
  · -- portrait or square, height over the bound
    have hle : w * (1000 / h) ≤ 1000 := by
      rw [mul_comm, div_mul_eq_mul_div, div_le_iff₀ hh]
      nlinarith [not_lt.mp hwh]
    refine ⟨hle, le_refl _, ?_, fun _ => max_eq_right hle,
      fun _ hcon => absurd hcon (not_le.mpr hh1000)⟩
    field_simp
    try ring
  · -- portrait or square, already within the bound
    have hhle : h ≤ 1000 := not_lt.mp hh1000
    have hmax : max w h ≤ 1000 := max_le (le_trans (not_lt.mp hwh) hhle) hhle
    exact ⟨le_trans (not_lt.mp hwh) hhle, hhle, mul_comm w h,
      fun hcon => absurd hcon (not_lt.mpr hmax), fun _ _ => rfl⟩

/-- C10: for positive input dimensions and any rotation, the scaled
dimensions are each at most 1000, the aspect ratio is preserved exactly
(over ℚ; the source rounds through canvas pixels), the longer edge lands
exactly on 1000 whenever some edge exceeded 1000, images already within
the bound are left unscaled, and the output canvas swaps width and height
exactly when `rotation % 180 ≠ 0`. -/
theorem C10_compressImage_bounds :
    ∀ (w h : ℚ) (rot : Int), 0 < w → 0 < h →
      (scaleDims w h).1 ≤ 1000 ∧
      (scaleDims w h).2 ≤ 1000 ∧
      (scaleDims w h).1 * h = (scaleDims w h).2 * w ∧
      (1000 < max w h → max (scaleDims w h).1 (scaleDims w h).2 = 1000) ∧
      (w ≤ 1000 → h ≤ 1000 → scaleDims w h = (w, h)) ∧
      compressImage w h rot =
        (if rot % 180 ≠ 0 then ((scaleDims w h).2, (scaleDims w h).1)
         else scaleDims w h) := by
  intro w h rot hw hh
  obtain ⟨h1, h2, h3, h4, h5⟩ := scaleDims_spec w h hw hh
  refine ⟨h1, h2, h3, h4, h5, ?_⟩
  simp only [compressImage]

/-- C10 witness: the theorem applied to a concrete 2000 by 1000 image
rotated by 90 degrees. -/
theorem C10_compressImage_bounds_witness :
    (0 : ℚ) < 2000 ∧ (0 : ℚ) < 1000 ∧
    (scaleDims 2000 1000).1 ≤ 1000 ∧ (scaleDims 2000 1000).2 ≤ 1000 :=
  ⟨by norm_num, by norm_num,
   (C10_compressImage_bounds 2000 1000 90 (by norm_num) (by norm_num)).1,
   (C10_compressImage_bounds 2000 1000 90 (by norm_num) (by norm_num)).2.1⟩


/-- Within one window, starting from a live count `c` (between 1 and 41),
a burst of same-timestamp requests is admitted exactly while the count has
not passed the ceiling, and the count saturates at 41. -/
theorem runAdmits_replicate_state (n : Nat) : ∀ (c t : Nat), 1 ≤ c → c ≤ 41 →
    runAdmits (List.replicate n t) (some ⟨t, c⟩) =
      ((List.range n).map (fun k => decide (c + k ≤ 40)),
       some ⟨t, min (c + n) 41⟩) := by
  induction n with
  | zero =>
    intro c t hc1 hc41
    simp [runAdmits, Nat.min_eq_left hc41]
  | succ n ih =>
    intro c t hc1 hc41
    rw [List.replicate_succ]
    simp only [runAdmits]
    have hwin : t - t < windowDuration := by
      unfold windowDuration
      omega
    by_cases h40 : c > rateCeiling
    · have hadm : admitRequest t (some ⟨t, c⟩) = (false, ⟨t, c⟩) := by
        simp only [admitRequest]
        rw [if_pos hwin, if_pos h40]
      rw [hadm]
      rw [ih c t hc1 hc41]
      have hc : c = 41 := by
        unfold rateCeiling at h40
        omega
      simp only [Prod.mk.injEq]
      refine ⟨?_, ?_⟩
      · rw [List.range_succ_eq_map, List.map_cons, List.map_map]
        refine List.cons_eq_cons.mpr ⟨?_, ?_⟩
        · subst hc
          simp
        · apply List.map_congr_left
          intro k _
          simp only [Function.comp]
          rw [decide_eq_decide]
          omega
      · simp only [Option.some.injEq, ClientThrottleState.mk.injEq]
        exact ⟨trivial, by omega⟩
    · have hadm : admitRequest t (some ⟨t, c⟩) = (true, ⟨t, c + 1⟩) := by
        simp only [admitRequest]
        rw [if_pos hwin, if_neg h40]
      rw [hadm]
      have hc40 : c ≤ 40 := by
        unfold rateCeiling at h40
        omega
      rw [ih (c + 1) t (by omega) (by omega)]
      simp only [Prod.mk.injEq]
      refine ⟨?_, ?_⟩
      · rw [List.range_succ_eq_map, List.map_cons, List.map_map]
        refine List.cons_eq_cons.mpr ⟨?_, ?_⟩
        · simp
          omega
        · apply List.map_congr_left
          intro k _
          simp only [Function.comp]
          rw [decide_eq_decide]
          omega
      · simp only [Option.some.injEq, ClientThrottleState.mk.injEq]
        exact ⟨trivial, by omega⟩

/-- A fresh client firing a same-timestamp burst of `n` requests is
admitted on exactly the first 41 of them, and its count saturates. -/
theorem runAdmits_replicate_none (n t : Nat) :
    runAdmits (List.replicate n t) none =
      ((List.range n).map (fun k => decide (k ≤ 40)),
       if n = 0 then none else some ⟨t, min n 41⟩) := by
  cases n with
  | zero => simp [runAdmits]
  | succ n =>
    rw [List.replicate_succ]
    simp only [runAdmits]
    rw [show admitRequest t none = (true, ⟨t, 1⟩) from rfl]
    rw [runAdmits_replicate_state n 1 t (le_refl 1) (by omega)]
    simp only [Prod.mk.injEq]
    refine ⟨?_, ?_⟩
    · rw [List.range_succ_eq_map, List.map_cons, List.map_map]
      refine List.cons_eq_cons.mpr ⟨by simp, ?_⟩
      apply List.map_congr_left
      intro k _
      simp only [Function.comp]
      rw [decide_eq_decide]
      omega
    · rw [if_neg (Nat.succ_ne_zero n)]
      simp only [Option.some.injEq, ClientThrottleState.mk.injEq]
      exact ⟨trivial, by omega⟩

/-- C2: for every client, `admitRequest` follows the fixed 60-second-window
algorithm — a first request creates state with count 1 and allows; while
`now - window_start < 60` it rejects exactly when the count exceeds the
ceiling of 40 and otherwise increments and allows; an elapsed window
resets `window_start = now`, count 1, and allows. Consequently a client
bursting `n` requests inside one window is admitted on exactly the
requests whose zero-based index is at most 40 (the excess is rejected),
and a request issued once the window has elapsed is admitted again. -/
theorem C2_rate_limiter_fixed_window :
    (∀ t, admitRequest t none = (true, ⟨t, 1⟩)) ∧
    (∀ now s, now - s.window_start < windowDuration → s.count > rateCeiling →
      admitRequest now (some s) = (false, s)) ∧
    (∀ now s, now - s.window_start < windowDuration → ¬s.count > rateCeiling →
      admitRequest now (some s) = (true, ⟨s.window_start, s.count + 1⟩)) ∧
    (∀ now s, ¬now - s.window_start < windowDuration →
      admitRequest now (some s) = (true, ⟨now, 1⟩)) ∧
    (∀ n t, (runAdmits (List.replicate n t) none).1 =
      (List.range n).map (fun k => decide (k ≤ 40))) ∧
    (∀ n t, (admitRequest (t + windowDuration)
      (runAdmits (List.replicate n t) none).2).1 = true) := by
  refine ⟨fun t => rfl, ?_, ?_, ?_, ?_, ?_⟩
  · intro now s hwin hc
    simp only [admitRequest]
    rw [if_pos hwin, if_pos hc]
  · intro now s hwin hc
    simp only [admitRequest]
    rw [if_pos hwin, if_neg hc]
  · intro now s hwin
    simp only [admitRequest]
    rw [if_neg hwin]
  · intro n t
    rw [runAdmits_replicate_none]
  · intro n t
    rw [runAdmits_replicate_none]
    cases n with
    | zero => rfl
    | succ n =>
      rw [if_neg (Nat.succ_ne_zero n)]
      simp only [admitRequest]
      rw [if_neg (by unfold windowDuration; omega)]

/-- C2 witness: the theorem applied to concrete states and a concrete
burst of 42 same-timestamp requests from a fresh client. -/
theorem C2_rate_limiter_fixed_window_witness :
    ((0 : Nat) - 0 < windowDuration ∧ (41 : Nat) > rateCeiling ∧
      admitRequest 0 (some ⟨0, 41⟩) = (false, ⟨0, 41⟩)) ∧
    ((0 : Nat) - 0 < windowDuration ∧ ¬(1 : Nat) > rateCeiling ∧
      admitRequest 0 (some ⟨0, 1⟩) = (true, ⟨0, 2⟩)) ∧
    (¬(100 : Nat) - 0 < windowDuration ∧
      admitRequest 100 (some ⟨0, 5⟩) = (true, ⟨100, 1⟩)) ∧
    (runAdmits (List.replicate 42 0) none).1 =
      (List.range 42).map (fun k => decide (k ≤ 40)) ∧
    (admitRequest (0 + windowDuration) (runAdmits (List.replicate 42 0) none).2).1 =
      true :=
  ⟨⟨by decide, by decide,
    C2_rate_limiter_fixed_window.2.1 0 ⟨0, 41⟩ (by decide) (by decide)⟩,
   ⟨by decide, by decide,
    C2_rate_limiter_fixed_window.2.2.1 0 ⟨0, 1⟩ (by decide) (by decide)⟩,
   ⟨by decide,
    C2_rate_limiter_fixed_window.2.2.2.1 100 ⟨0, 5⟩ (by decide)⟩,
   C2_rate_limiter_fixed_window.2.2.2.2.1 42 0,
   C2_rate_limiter_fixed_window.2.2.2.2.2 42 0⟩

/-- Looking up a key right after `put` sees the fresh entry: present while
its age is within the ttl, absent once the age exceeds it. -/
theorem cacheGet_put (cache : Cache) (ttl t now : Nat) (key : Fingerprint)
    (v : IdentificationResult) :
    cacheGet (cachePut cache key v t) ttl now key =
      if now - t > ttl then none else some v := by
  unfold cacheGet cachePut
  rw [List.find?_cons_of_pos _ (by simp)]

/-- Looking up a key that no stored entry carries is absent. -/
theorem cacheGet_not_mem (cache : Cache) (ttl now : Nat) (key : Fingerprint)
    (h : ∀ p ∈ cache, p.1 ≠ key) : cacheGet cache ttl now key = none := by
  unfold cacheGet
  have hfind : List.find? (fun e => e.1 == key) cache = none :=
    List.find?_eq_none.mpr (fun p hp => by simpa using h p hp)
  rw [hfind]

/-- C3: the cache treats a key as absent exactly when it was never stored
or the stored entry's age exceeds the ttl (default 3600 seconds); `put`
always overwrites, so after a put the key's only entry is the fresh one
and a get returns the fresh value while within the ttl and absent once
`now - stored_at > ttl`; the expired entry is not purged by the write,
it merely reads as absent. -/
theorem C3_result_cache_ttl :
    ttlDefault = 3600 ∧
    (∀ (cache : Cache) (ttl now : Nat) (key : Fingerprint),
      (∀ p ∈ cache, p.1 ≠ key) → cacheGet cache ttl now key = none) ∧
    (∀ (cache : Cache) (ttl t now : Nat) (key : Fingerprint)
      (v : IdentificationResult),
      cacheGet (cachePut cache key v t) ttl now key =
        if now - t > ttl then none else some v) ∧
    (∀ (cache : Cache) (t : Nat) (key : Fingerprint)
      (v : IdentificationResult) (p : Fingerprint × CacheEntry),
      p ∈ cachePut cache key v t → p.1 = key → p = (key, ⟨v, t⟩)) ∧
    (∀ (cache : Cache) (t : Nat) (key : Fingerprint)
      (v : IdentificationResult),
      (key, (⟨v, t⟩ : CacheEntry)) ∈ cachePut cache key v t) := by
  refine ⟨rfl, cacheGet_not_mem, cacheGet_put, ?_, ?_⟩
  · intro cache t key v p hp hkey
    rcases List.mem_cons.mp hp with h | h
    · exact h
    · exfalso
      have := (List.mem_filter.mp h).2
      simp [hkey] at this
  · intro cache t key v
    exact List.mem_cons_self _ _

/-- C3 witness: the theorem applied to an initially empty cache with one
concrete entry stored at time 0, read back at times 3600 and 3601. -/
theorem C3_result_cache_ttl_witness :
    cacheGet ([] : Cache) ttlDefault 0 [1] = none ∧
    cacheGet (cachePut [] [1] sampleResult 0) ttlDefault 3600 [1] =
      some sampleResult ∧
    cacheGet (cachePut [] [1] sampleResult 0) ttlDefault 3601 [1] = none ∧
    ([1], (⟨sampleResult, 0⟩ : CacheEntry)) ∈ cachePut [] [1] sampleResult 0 :=
  ⟨C3_result_cache_ttl.2.1 [] ttlDefault 0 [1] (by simp),
   (C3_result_cache_ttl.2.2.1 [] ttlDefault 0 3600 [1] sampleResult).trans
     (by norm_num [ttlDefault]),
   (C3_result_cache_ttl.2.2.1 [] ttlDefault 0 3601 [1] sampleResult).trans
     (by norm_num [ttlDefault]),
   C3_result_cache_ttl.2.2.2.2 [] 0 [1] sampleResult⟩

/-- C4: an admitted identify request that misses the cache and whose
visual lookup yields no candidate (the model's `none`, which uniformly
covers an empty match list, a non-success status and a transport error)
terminates as the 500 ServerError response and leaves the cache exactly
as it was, so no entry is created for the image's fingerprint; moreover
every identify request either leaves the cache unchanged or stores
exactly one fully composed IdentificationResult, the one it returns. -/
theorem C4_lookup_failure_no_cache_write :
    (∀ (lookup : List Nat → Option Candidate)
      (decode : List Nat → Option (List Pixel)) (fp : List Nat → Fingerprint)
      (throttle : Option ClientThrottleState) (cache : Cache)
      (now : Nat) (img : List Nat),
      (admitRequest now throttle).1 = true →
      cacheGet cache ttlDefault now (fp img) = none →
      lookup img = none →
      (identifyRequest lookup decode fp throttle cache now img).response =
        IdentifyResponse.serverError ∧
      (identifyRequest lookup decode fp throttle cache now img).cache =
        cache) ∧
    (∀ (lookup : List Nat → Option Candidate)
      (decode : List Nat → Option (List Pixel)) (fp : List Nat → Fingerprint)
      (throttle : Option ClientThrottleState) (cache : Cache)
      (now : Nat) (img : List Nat),
      (identifyRequest lookup decode fp throttle cache now img).cache =
        cache ∨
      ∃ r, (identifyRequest lookup decode fp throttle cache now img).response =
          IdentifyResponse.ok r ∧
        (identifyRequest lookup decode fp throttle cache now img).cache =
          cachePut cache (fp img) r now) := by
  constructor
  · intro lookup decode fp throttle cache now img h1 h2 h3
    constructor <;> simp [identifyRequest, h1, h2, h3]
  · intro lookup decode fp throttle cache now img
    simp only [identifyRequest]
    split
    · left
      rfl
    · split
      · left
        rfl
      · split
        · left
          rfl
        · right
          exact ⟨_, rfl, rfl⟩

/-- C4 witness: the theorem applied to a concrete admitted request on an
empty cache whose lookup finds nothing. -/
theorem C4_lookup_failure_no_cache_write_witness :
    (admitRequest 0 none).1 = true ∧
    cacheGet ([] : Cache) ttlDefault 0 [1] = none ∧
    (identifyRequest (fun _ => none) (fun _ => none) (fun b => b) none [] 0
      [1]).response = IdentifyResponse.serverError ∧
    (identifyRequest (fun _ => none) (fun _ => none) (fun b => b) none [] 0
      [1]).cache = [] :=
  ⟨by decide, by decide,
   (C4_lookup_failure_no_cache_write.1 (fun _ => none) (fun _ => none)
     (fun b => b) none [] 0 [1] (by decide) (by decide) rfl).1,
   (C4_lookup_failure_no_cache_write.1 (fun _ => none) (fun _ => none)
     (fun b => b) none [] 0 [1] (by decide) (by decide) rfl).2⟩

/-- C5: after a successful admitted identify of an image, a second
admitted request with byte-identical image content whose age against the
first is within the ttl is answered from the cache: it returns the same
response, performs zero outbound lookup calls (the first performed
exactly one), and leaves the cache untouched. -/
theorem C5_repeat_request_served_from_cache :
    ∀ (lookup : List Nat → Option Candidate)
      (decode : List Nat → Option (List Pixel)) (fp : List Nat → Fingerprint)
      (th1 th2 : Option ClientThrottleState) (cache : Cache)
      (now1 now2 : Nat) (img : List Nat) (cand : Candidate),
      (admitRequest now1 th1).1 = true →
      cacheGet cache ttlDefault now1 (fp img) = none →
      lookup img = some cand →
      (admitRequest now2 th2).1 = true →
      now2 - now1 ≤ ttlDefault →
      (identifyRequest lookup decode fp th1 cache now1 img).lookupCalls = 1 ∧
      (identifyRequest lookup decode fp th2
          (identifyRequest lookup decode fp th1 cache now1 img).cache
          now2 img).response =
        (identifyRequest lookup decode fp th1 cache now1 img).response ∧
      (identifyRequest lookup decode fp th2
          (identifyRequest lookup decode fp th1 cache now1 img).cache
          now2 img).lookupCalls = 0 ∧
      (identifyRequest lookup decode fp th2
          (identifyRequest lookup decode fp th1 cache now1 img).cache
          now2 img).cache =
        (identifyRequest lookup decode fp th1 cache now1 img).cache := by
  intro lookup decode fp th1 th2 cache now1 now2 img cand h1 h2 h3 h4 h5
  have ho1 : identifyRequest lookup decode fp th1 cache now1 img =
      ⟨IdentifyResponse.ok ⟨cand.identity, analyze decode img, staticCare,
          cand.shopping⟩,
       some (admitRequest now1 th1).2,
       cachePut cache (fp img)
         ⟨cand.identity, analyze decode img, staticCare, cand.shopping⟩ now1,
       1⟩ := by
    simp [identifyRequest, h1, h2, h3]
  have hget := cacheGet_put cache ttlDefault now1 now2 (fp img)
    ⟨cand.identity, analyze decode img, staticCare, cand.shopping⟩
  rw [if_neg (by omega)] at hget
  rw [ho1]
  refine ⟨rfl, ?_, ?_, ?_⟩ <;> simp [identifyRequest, h4, hget]

/-- C5 witness: the theorem applied to a concrete image submitted twice,
ten seconds apart, against an initially empty cache. -/
theorem C5_repeat_request_served_from_cache_witness :
    (identifyRequest (fun _ => some ⟨⟨"Rose", "Rosa", "r"⟩, []⟩)
      (fun _ => none) (fun b => b) none [] 0 [2]).lookupCalls = 1 ∧
    (identifyRequest (fun _ => some ⟨⟨"Rose", "Rosa", "r"⟩, []⟩)
      (fun _ => none) (fun b => b) none
      (identifyRequest (fun _ => some ⟨⟨"Rose", "Rosa", "r"⟩, []⟩)
        (fun _ => none) (fun b => b) none [] 0 [2]).cache
      10 [2]).response =
      (identifyRequest (fun _ => some ⟨⟨"Rose", "Rosa", "r"⟩, []⟩)
        (fun _ => none) (fun b => b) none [] 0 [2]).response ∧
    (identifyRequest (fun _ => some ⟨⟨"Rose", "Rosa", "r"⟩, []⟩)
      (fun _ => none) (fun b => b) none
      (identifyRequest (fun _ => some ⟨⟨"Rose", "Rosa", "r"⟩, []⟩)
        (fun _ => none) (fun b => b) none [] 0 [2]).cache
      10 [2]).lookupCalls = 0 ∧
    (identifyRequest (fun _ => some ⟨⟨"Rose", "Rosa", "r"⟩, []⟩)
      (fun _ => none) (fun b => b) none
      (identifyRequest (fun _ => some ⟨⟨"Rose", "Rosa", "r"⟩, []⟩)
        (fun _ => none) (fun b => b) none [] 0 [2]).cache
      10 [2]).cache =
      (identifyRequest (fun _ => some ⟨⟨"Rose", "Rosa", "r"⟩, []⟩)
        (fun _ => none) (fun b => b) none [] 0 [2]).cache :=
  C5_repeat_request_served_from_cache
    (fun _ => some ⟨⟨"Rose", "Rosa", "r"⟩, []⟩) (fun _ => none) (fun b => b)
    none none [] 0 10 [2] ⟨⟨"Rose", "Rosa", "r"⟩, []⟩
    (by decide) (by decide) rfl (by decide) (by decide)

/-- On a nonempty pixel sequence the health percentage follows the
boosted, capped green-ratio formula. -/
theorem analyzePixels_percentage (pixels : List Pixel) (h : pixels ≠ []) :
    (analyzePixels pixels).percentage =
      min 100 (greenCount pixels * 100 / pixels.length + 30) := by
  have hlen : ¬pixels.length = 0 := by simpa using h
  simp only [analyzePixels]
  rw [if_neg hlen]

/-- On a nonempty pixel sequence the issues label follows the ordered
yellow-then-brown threshold checks. -/
theorem analyzePixels_issues (pixels : List Pixel) (h : pixels ≠ []) :
    (analyzePixels pixels).issues =
      (if yellowCount pixels * 100 > 15 * pixels.length then
        "Yellowing detected"
       else if brownCount pixels * 100 > 10 * pixels.length then
        "Dryness detected"
       else "None") := by
  have hlen : ¬pixels.length = 0 := by simpa using h
  simp only [analyzePixels]
  rw [if_neg hlen]

/-- C6: for every byte input and every decoder behavior, `analyze` is a
total function whose percentage lies in 0..100 (the percentage is a
natural number, so the lower bound is by type), and on any decode error
it returns the fixed fallback result with percentage 85, sunlight Medium
and issues Manual scan recommended instead of propagating an error. -/
theorem C6_analyze_never_fails_bounded :
    ∀ (decode : List Nat → Option (List Pixel)) (bytes : List Nat),
      (analyze decode bytes).percentage ≤ 100 ∧
      (decode bytes = none → analyze decode bytes = decodeFallback) ∧
      decodeFallback = ⟨85, "Medium", "Manual scan recommended"⟩ := by
  intro decode bytes
  refine ⟨?_, ?_, rfl⟩
  · unfold analyze
    cases hd : decode bytes with
    | none => decide
    | some pixels =>
      simp only [analyzePixels]
      by_cases hl : pixels.length = 0
      · rw [if_pos hl]
        decide
      · rw [if_neg hl]
        exact Nat.min_le_left _ _
  · intro hd
    unfold analyze
    rw [hd]

/-- C6 witness: the theorem applied to a decoder that rejects the input. -/
theorem C6_analyze_never_fails_bounded_witness :
    (analyze (fun _ => none) [0]).percentage ≤ 100 ∧
    analyze (fun _ => none) [0] = decodeFallback :=
  ⟨(C6_analyze_never_fails_bounded (fun _ => none) [0]).1,
   (C6_analyze_never_fails_bounded (fun _ => none) [0]).2.1 rfl⟩

/-- C7: on every decodable image with at least one pixel the percentage
equals `min 100 (floor(green/total*100) + 30)` with green counting the
pixels whose green channel strictly exceeds red and blue; zero total
short-circuits to the fallback with percentage 80, sunlight Normal and
no issues; and an all-green 10000-pixel (100 by 100) synthetic image
scores at least 95. -/
theorem C7_health_percentage_formula :
    (∀ pixels : List Pixel, pixels ≠ [] →
      (analyzePixels pixels).percentage =
        min 100 (greenCount pixels * 100 / pixels.length + 30)) ∧
    (∀ pixels : List Pixel,
      greenCount pixels =
        pixels.countP (fun p => decide (p.r < p.g ∧ p.b < p.g))) ∧
    analyzePixels [] = emptyImageResult ∧
    emptyImageResult = ⟨80, "Normal", "None"⟩ ∧
    95 ≤ (analyzePixels (List.replicate 10000 ⟨0, 255, 0⟩)).percentage := by
  refine ⟨analyzePixels_percentage, ?_, rfl, rfl, ?_⟩
  · intro pixels
    unfold greenCount
    rw [List.countP_eq_length_filter]
    congr 1
    apply List.filter_congr
    intro p _
    rw [Bool.decide_and]
    rfl
  · have hne : (List.replicate 10000 (⟨0, 255, 0⟩ : Pixel)) ≠ [] :=
      List.ne_nil_of_length_pos (by rw [List.length_replicate]; norm_num)
    rw [analyzePixels_percentage _ hne]
    have hg : greenCount (List.replicate 10000 (⟨0, 255, 0⟩ : Pixel)) =
        10000 := by
      unfold greenCount
      rw [List.filter_replicate, if_pos (by decide), List.length_replicate]
    rw [hg, List.length_replicate]
    decide

/-- C7 witness: the formula applied to a concrete one-pixel green image. -/
theorem C7_health_percentage_formula_witness :
    ([⟨0, 2, 0⟩] : List Pixel) ≠ [] ∧
    (analyzePixels [⟨0, 2, 0⟩]).percentage =
      min 100 (greenCount [⟨0, 2, 0⟩] * 100 /
        ([⟨0, 2, 0⟩] : List Pixel).length + 30) :=
  ⟨by decide, C7_health_percentage_formula.1 [⟨0, 2, 0⟩] (by decide)⟩

/-- C8: on every decodable nonempty image the issues label is Yellowing
detected when `yellow > 0.15 * total` (taken exactly as
`yellow * 100 > 15 * total`), else Dryness detected when
`brown > 0.10 * total`, else None, in that priority order, so yellow
wins when both thresholds are exceeded; and a fully brown synthetic
image reads Dryness detected. -/
theorem C8_issues_priority :
    (∀ pixels : List Pixel, pixels ≠ [] →
      (analyzePixels pixels).issues =
        (if yellowCount pixels * 100 > 15 * pixels.length then
          "Yellowing detected"
         else if brownCount pixels * 100 > 10 * pixels.length then
          "Dryness detected"
         else "None")) ∧
    (∀ pixels : List Pixel, pixels ≠ [] →
      yellowCount pixels * 100 > 15 * pixels.length →
      brownCount pixels * 100 > 10 * pixels.length →
      (analyzePixels pixels).issues = "Yellowing detected") ∧
    (analyzePixels (List.replicate 100 ⟨150, 50, 50⟩)).issues =
      "Dryness detected" := by
  refine ⟨analyzePixels_issues, ?_, ?_⟩
  · intro pixels hne hy _
    rw [analyzePixels_issues pixels hne, if_pos hy]
  · have hne : (List.replicate 100 (⟨150, 50, 50⟩ : Pixel)) ≠ [] :=
      List.ne_nil_of_length_pos (by rw [List.length_replicate]; norm_num)
    rw [analyzePixels_issues _ hne]
    have hy : yellowCount (List.replicate 100 (⟨150, 50, 50⟩ : Pixel)) =
        0 := by
      unfold yellowCount
      rw [List.filter_replicate, if_neg (by decide)]
      rfl
    have hb : brownCount (List.replicate 100 (⟨150, 50, 50⟩ : Pixel)) =
        100 := by
      unfold brownCount
      rw [List.filter_replicate, if_pos (by decide), List.length_replicate]
    rw [hy, hb, List.length_replicate]
    decide

/-- C8 witness: the precedence case applied to a concrete image over both
thresholds at once. -/
theorem C8_issues_priority_witness :
    mixedPixels ≠ [] ∧
    yellowCount mixedPixels * 100 > 15 * mixedPixels.length ∧
    brownCount mixedPixels * 100 > 10 * mixedPixels.length ∧
    (analyzePixels mixedPixels).issues = "Yellowing detected" :=
  ⟨by decide, by decide, by decide,
   C8_issues_priority.2.1 mixedPixels (by decide) (by decide) (by decide)⟩

/-- C9: `analyze` is deterministic and idempotent — identical input bytes
always yield the identical output triple of percentage, sunlight and
issues; in the functional embedding this is the congruence of `analyze`
in its byte argument, and it holds because the model keeps no hidden
state and consults no randomness. -/
theorem C9_analyze_deterministic :
    ∀ (decode : List Nat → Option (List Pixel)) (b1 b2 : List Nat),
      b1 = b2 →
      analyze decode b1 = analyze decode b2 ∧
      ((analyze decode b1).percentage, (analyze decode b1).sunlight,
        (analyze decode b1).issues) =
      ((analyze decode b2).percentage, (analyze decode b2).sunlight,
        (analyze decode b2).issues) := by
  intro decode b1 b2 h
  subst h
  exact ⟨rfl, rfl⟩

/-- C9 witness: the theorem applied to a concrete repeated byte string. -/
theorem C9_analyze_deterministic_witness :
    analyze (fun _ => none) [7] = analyze (fun _ => none) [7] :=
  (C9_analyze_deterministic (fun _ => none) [7] [7] rfl).1
